import Mathlib

/-!
Verification of the document ingestion and retrieval pipeline of the
`ai-profiles-creation` repository (the `chat-bots-profiles/backend` variant cited
by the claims).  Python functions are shallowly embedded as Lean functions over
`List Char` (Python `str`), `List Nat` (Python `bytes`), `Int` (Python `int`)
and `ℚ` (numeric vector entries).  External libraries (PyPDF2, json, chardet,
sentence-transformers, ...) are abstracted as oracle parameters; the pydantic
`BaseModel` behaviour that the repository's own schemas trigger (unknown keyword
arguments ignored at construction, `ValueError` on assignment to an undeclared
field, `ValidationError` on a missing required field) is modelled explicitly,
since several functions under verification hit it.
-/

/-- String type of the embedding: a Python `str` as a list of characters. -/
abbrev Str := List Char

/-- Python whitespace recognised by `str.strip()` and the regex class `\s`
(ASCII range; the Unicode-only whitespace code points are not modelled). -/
def isPySpace (c : Char) : Bool :=
  c = ' ' || c = '\t' || c = '\n' || c = '\r' || c = '\x0b' || c = '\x0c'

/-- Python `s.strip()` with no arguments: remove leading and trailing
whitespace. -/
def pyStrip (xs : Str) : Str :=
  ((xs.dropWhile isPySpace).reverse.dropWhile isPySpace).reverse

/-- Scanner for `re.sub(r'\s+', ' ', text)`: `inRun` records whether the
previous character was part of a whitespace run (in which case further
whitespace of the same run emits nothing). -/
def collapseWsAux (inRun : Bool) : Str → Str
  | [] => []
  | c :: rest =>
    if isPySpace c then
      if inRun then collapseWsAux true rest
      else ' ' :: collapseWsAux true rest
    else c :: collapseWsAux false rest

/-- Python `re.sub(r'\s+', ' ', text)`: replace every maximal run of
whitespace characters by a single space. -/
def collapseWs (xs : Str) : Str := collapseWsAux false xs

/-- Normalisation performed by `DocumentProcessor._chunk_text` (line 191):
`text = re.sub(r'\s+', ' ', text).strip()`. -/
def normalizeWs (xs : Str) : Str := pyStrip (collapseWs xs)

/-- Python `str.lower()` on the ASCII fragment (`Char.toLower` lowercases
exactly the characters `A`-`Z`, as CPython does for ASCII input). -/
def pyLowerStr (s : Str) : Str := s.map Char.toLower

/-- Python substring test `sub in s` (`str.__contains__`): some split of `s`
has `sub` starting at it; the empty string is contained in every string. -/
def pyContains (s sub : Str) : Bool :=
  (List.range (s.length + 1)).any (fun k => decide ((s.drop k).take sub.length = sub))

/-- Python `s.split()` with no arguments: split on runs of whitespace,
discarding empty pieces. -/
def pySplitWs : Str → List Str
  | [] => []
  | c :: rest =>
    if isPySpace c then pySplitWs rest
    else ((c :: rest).takeWhile (fun d => !isPySpace d)) ::
      pySplitWs ((c :: rest).dropWhile (fun d => !isPySpace d))
termination_by xs => xs.length
decreasing_by
  · exact Nat.lt_succ_of_le (Nat.le_refl _)
  · simp only [List.dropWhile]
    have h : (!isPySpace c) = true := by simp [*]
    rw [h]
    exact Nat.lt_succ_of_le ((List.dropWhile_sublist _).length_le)

/-- Clamping of one Python slice bound to `[0, len]`, as in CPython's
`PySlice_AdjustIndices` for step `1`: negative indices count from the end. -/
def pyClamp (len : Nat) (i : Int) : Nat :=
  if i < 0 then ((len : Int) + i).toNat else min i.toNat len

/-- Python slice `xs[a:b]` (default step). -/
def pySlice (xs : Str) (a b : Int) : Str :=
  (xs.take (pyClamp xs.length b)).drop (pyClamp xs.length a)

/-- Python indexing `xs[i]` as a total function (negative indices count from
the end; every call site below stays inside the valid range, so the default
returned out of range never influences a result). -/
def pyCharAt (xs : Str) (i : Int) : Char :=
  xs.getD (if i < 0 then ((xs.length : Int) + i).toNat else i.toNat) '\x00'

/-- Python `range(hi, lo, -1)` as the list `[hi, hi-1, ..., lo+1]`. -/
def pyRangeDown (hi lo : Int) : List Int :=
  (List.range (hi - lo).toNat).map (fun k : Nat => hi - (k : Int))

/-- Python `str.rfind(c)`: index of the last occurrence, `-1` if absent. -/
def pyRFind (p : Str) (c : Char) : Int :=
  match p.reverse.findIdx? (· == c) with
  | some k => (p.length : Int) - 1 - (k : Int)
  | none => -1

/-- Python `os.path.splitext` (posixpath `_splitext`): split off the extension
at the last dot, unless every character of the basename before that dot is
itself a dot (so `.bashrc` has no extension).  The scan of the while loop is
rendered as a bounded search over the same index range. -/
def pySplitext (p : Str) : Str × Str :=
  let sepIdx := pyRFind p '/'
  let dotIdx := pyRFind p '.'
  if sepIdx < dotIdx ∧
      (List.range (dotIdx - (sepIdx + 1)).toNat).any
        (fun k => !(pyCharAt p (sepIdx + 1 + (k : Int)) == '.')) then
    (pySlice p 0 dotIdx, pySlice p dotIdx p.length)
  else (p, [])

/-! ## Pydantic schema `app/schemas/document.py` -/

/-- Record of `DocumentMetadata` (schemas/document.py lines 41-48).  These six
optional fields are the only declared ones; in particular `word_count`,
`read_time_minutes`, `description`, `title`, `file_size` and `file_type` are
NOT fields of this model, although several service functions try to use them. -/
structure DocumentMetadata where
  author : Option Str := none
  created_date : Option Str := none
  modified_date : Option Str := none
  page_count : Option Int := none
  source : Option Str := none
  language : Option Str := none
deriving DecidableEq, Inhabited

/-- Message of the `ValueError` pydantic raises when an attribute that is not
a declared field is assigned on a `BaseModel` instance (the default model
config does not allow extra fields; this holds for pydantic v1 and v2). -/
def pydanticNoFieldMsg (f : Str) : Str :=
  "\"DocumentMetadata\" object has no field \"".data ++ f ++ "\"".data

/-! ## `app/services/documents/processors.py` -/

/-- Embedding of `process_text_metadata` (processors.py lines 23-42).  Inside
the `try` block the word count is computed, but the very first statement that
stores it, `existing_metadata.word_count = word_count`, assigns an attribute
that is not a declared field of `DocumentMetadata`, so pydantic raises
`ValueError`; the `except` handler logs and returns `existing_metadata`
unchanged.  (The `read_time_minutes` assignment is likewise unreachable.) -/
def process_text_metadata (content : Str) (existing_metadata : DocumentMetadata) :
    DocumentMetadata :=
  let word_count := (pySplitWs content).length
  let body : Except Str DocumentMetadata :=
    Except.error (pydanticNoFieldMsg "word_count".data)
  let _ := word_count
  match body with
  | Except.ok m => m
  | Except.error _ => existing_metadata

/-- Enum `DocumentType` (schemas/document.py lines 8-18). -/
inductive DocumentType where
  | text | pdf | docx | markdown | csv | json | excel | html | other
deriving DecidableEq

/-- Dictionary `extension_map` of `get_document_type_from_extension`
(processors.py lines 46-58). -/
def extension_map : List (Str × DocumentType) :=
  [("txt".data, DocumentType.text),
   ("pdf".data, DocumentType.pdf),
   ("docx".data, DocumentType.docx),
   ("doc".data, DocumentType.docx),
   ("md".data, DocumentType.markdown),
   ("csv".data, DocumentType.csv),
   ("json".data, DocumentType.json),
   ("xls".data, DocumentType.excel),
   ("xlsx".data, DocumentType.excel),
   ("html".data, DocumentType.html),
   ("htm".data, DocumentType.html)]

/-- Embedding of `get_document_type_from_extension` (processors.py lines
44-60): `extension_map.get(extension.lower(), DocumentType.OTHER)`. -/
def get_document_type_from_extension (extension : Str) : DocumentType :=
  match extension_map.lookup (pyLowerStr extension) with
  | some t => t
  | none => DocumentType.other

/-- Result of decoding bytes with a named codec: success, a
`UnicodeDecodeError` (caught by the inner handler of the `.txt` branch), or
another exception such as `LookupError` for an unknown codec name. -/
inductive DecodeResult where
  | ok (s : Str)
  | unicodeError (msg : Str)
  | otherError (msg : Str)

/-- Oracle for the external libraries used by `extract_text_from_file`:
`chardet.detect`, byte decoding, and one entry per `_extract_from_*` helper
(PyPDF2, python-docx, markdown+bs4, csv, pandas, json, bs4, python-pptx,
ebooklib).  Each helper receives the file bytes and the metadata and either
returns normally or raises (`Except.error`); the theorems below hold for every
oracle, i.e. for arbitrary behaviour of the external libraries. -/
structure LibOracle where
  chardetEncoding : List Nat → Option Str
  decodeBytes : Str → List Nat → DecodeResult
  latin1Decode : List Nat → Str
  pdfExtract : List Nat → DocumentMetadata → Except Str (Str × DocumentMetadata)
  docxExtract : List Nat → DocumentMetadata → Except Str (Str × DocumentMetadata)
  mdExtract : List Nat → DocumentMetadata → Except Str (Str × DocumentMetadata)
  csvExtract : List Nat → DocumentMetadata → Except Str (Str × DocumentMetadata)
  excelExtract : List Nat → DocumentMetadata → Except Str (Str × DocumentMetadata)
  jsonExtract : List Nat → DocumentMetadata → Except Str (Str × DocumentMetadata)
  htmlExtract : List Nat → DocumentMetadata → Except Str (Str × DocumentMetadata)
  xmlExtract : List Nat → DocumentMetadata → Except Str (Str × DocumentMetadata)
  pptExtract : List Nat → DocumentMetadata → Except Str (Str × DocumentMetadata)
  ebookExtract : List Nat → DocumentMetadata → Except Str (Str × DocumentMetadata)

/-- Diagnostic returned for an extension outside the dispatch table
(processors.py line 125). -/
def unsupportedMsg (extension : Str) : Str :=
  "Unsupported file type: ".data ++ extension ++
  ". The application currently supports txt, pdf, docx, md, csv, excel, json, html, xml, powerpoint, and ebook formats.".data

/-- Body of the `try` block of `extract_text_from_file` (processors.py lines
75-125): dispatch on the lower-cased extension.  The `.txt` branch is inlined
in the source and is embedded concretely: `chardet.detect(raw)['encoding'] or
'utf-8'`, decode, and on `UnicodeDecodeError` fall back to latin-1 (which
decodes any byte sequence).  An `Except.error` is an exception escaping the
body, to be caught by the outer handler. -/
def extractBody (o : LibOracle) (fileBytes : List Nat) (extension : Str)
    (metadata : DocumentMetadata) : Except Str (Str × DocumentMetadata) :=
  if extension = ".txt".data then
    let encoding := (o.chardetEncoding fileBytes).getD "utf-8".data
    match o.decodeBytes encoding fileBytes with
    | DecodeResult.ok content => Except.ok (content, process_text_metadata content metadata)
    | DecodeResult.unicodeError _ =>
      let content := o.latin1Decode fileBytes
      Except.ok (content, process_text_metadata content metadata)
    | DecodeResult.otherError e => Except.error e
  else if extension = ".pdf".data then o.pdfExtract fileBytes metadata
  else if extension = ".docx".data ∨ extension = ".doc".data then o.docxExtract fileBytes metadata
  else if extension = ".md".data then o.mdExtract fileBytes metadata
  else if extension = ".csv".data then o.csvExtract fileBytes metadata
  else if extension = ".xls".data ∨ extension = ".xlsx".data then o.excelExtract fileBytes metadata
  else if extension = ".json".data then o.jsonExtract fileBytes metadata
  else if extension = ".html".data ∨ extension = ".htm".data then o.htmlExtract fileBytes metadata
  else if extension = ".xml".data then o.xmlExtract fileBytes metadata
  else if extension = ".pptx".data ∨ extension = ".ppt".data then o.pptExtract fileBytes metadata
  else if extension = ".epub".data ∨ extension = ".mobi".data then o.ebookExtract fileBytes metadata
  else Except.ok (unsupportedMsg extension, metadata)

/-- Embedding of `extract_text_from_file` (processors.py lines 62-130).  Before
the `try` block: `os.path.splitext(filename)[1].lower()`, the file size (a pure
seek on the byte buffer, unused below because of the next point), and
`DocumentMetadata(file_size=..., title=..., file_type=...)` — none of these
keyword arguments is a declared field of `DocumentMetadata`, and pydantic
ignores unknown keyword arguments, so the initial metadata is the default
record.  The outer `except Exception` converts any escaping exception into the
diagnostic text `"Error extracting text from file: ..."` with that metadata. -/
def extract_text_from_file (o : LibOracle) (fileBytes : List Nat) (filename : Str) :
    Str × DocumentMetadata :=
  let extension := pyLowerStr (pySplitext filename).2
  let metadata : DocumentMetadata := {}
  match extractBody o fileBytes extension metadata with
  | Except.ok r => r
  | Except.error e => ("Error extracting text from file: ".data ++ e, metadata)

/-- Truncation marker appended by `_extract_from_json` (processors.py line
307). -/
def truncationMarker : Str := "\n...(truncated)...".data

/-- Embedding of `_extract_from_json` (processors.py lines 296-323) after the
external `json.loads`/`json.dumps` calls: the pretty-printed text
`formatted_json` and the array/object classification are taken as inputs.
The truncation of `content` at 10000 characters follows lines 305-309.  The
subsequent `metadata.description = ...` (line 316 or 318, executed on both
branches) assigns an attribute that is not a declared field of
`DocumentMetadata`, so pydantic raises `ValueError`; the `except` handler
returns `("Error extracting text: ...", metadata)` where `metadata` is the
rebound result of `process_text_metadata`. -/
def extract_from_json (formatted_json : Str) (isArray : Bool)
    (metadata : DocumentMetadata) : Str × DocumentMetadata :=
  let content := if 10000 < formatted_json.length
    then formatted_json.take 10000 ++ truncationMarker
    else formatted_json
  let metadata1 := process_text_metadata content metadata
  let body : Except Str (Str × DocumentMetadata) :=
    Except.error (pydanticNoFieldMsg "description".data)
  let _ := isArray
  match body with
  | Except.ok r => r
  | Except.error e => ("Error extracting text: ".data ++ e, metadata1)

/-! ## `app/services/documents/analyzers.py`: cosine similarity -/

/-- Value of a numpy floating-point scalar as produced by
`calculate_similarity`: either a real number represented exactly as
`num / sqrt denomSq` (with `denomSq > 0`), or one of the non-finite values
produced by division by zero. -/
inductive SimValue where
  | nan
  | posInf
  | negInf
  | val (num denomSq : ℚ)
deriving DecidableEq

/-- Sum of squares of a vector; `np.linalg.norm v = Real.sqrt (sumSq v)`, so
the norm is zero exactly when `sumSq` is zero (see `norm_zero_iff_sumSq`). -/
def sumSq (v : List ℚ) : ℚ := (v.map (fun x => x * x)).sum

/-- Dot product `np.dot` of two equal-length vectors. -/
def npDot (a b : List ℚ) : ℚ := (List.zipWith (fun x y => x * y) a b).sum

/-- Embedding of `calculate_similarity` (analyzers.py lines 78-86):
`np.dot(q, d) / (np.linalg.norm(q) * np.linalg.norm(d))` under numpy float
semantics.  When the norm product is zero, numpy division emits a
`RuntimeWarning` and yields `nan` (or `±inf` for a nonzero numerator) — it
does not raise, so the `except` clause (which would return `0.0`) never runs
on this path.  The `except` clause is reachable only through a genuine
exception, e.g. `np.dot` raising `ValueError` on a shape mismatch, in which
case the function returns `0.0` (represented as `SimValue.val 0 1`). -/
def calculate_similarity (query_embedding doc_embedding : List ℚ) : SimValue :=
  if query_embedding.length = doc_embedding.length then
    if sumSq query_embedding = 0 ∨ sumSq doc_embedding = 0 then
      if npDot query_embedding doc_embedding = 0 then SimValue.nan
      else if 0 < npDot query_embedding doc_embedding then SimValue.posInf
      else SimValue.negInf
    else
      SimValue.val (npDot query_embedding doc_embedding)
        (sumSq query_embedding * sumSq doc_embedding)
  else SimValue.val 0 1


/-! ## `app/utils/document_processor.py`: `DocumentProcessor._chunk_text` -/

/-- Characters accepted as a break point by the backward scan of
`_chunk_text` (line 206): `text[i-1] in '.!? '`. -/
def breakChar (c : Char) : Bool := c = '.' || c = '!' || c = '?' || c = ' '

/-- Backward scan of `_chunk_text` (lines 203-208): `for i in range(end,
max(end - 100, start), -1)` returns the first `i` whose previous character is
a break character (the test `text[i:i+1] != ''` of the source is kept
although it always holds in range); without a break, `end` is unchanged.
`find?` returns the first element of the descending range satisfying the
condition, exactly as the `for`/`break`. -/
def findBreak (text : Str) (start end0 : Int) : Int :=
  match (pyRangeDown end0 (max (end0 - 100) start)).find?
      (fun i => breakChar (pyCharAt text (i - 1)) && !(pySlice text i (i + 1) == [])) with
  | some i => i
  | none => end0

/-- Window end used by each loop iteration (lines 199-208): `end = min(start
+ chunk_size, len(text))`, adjusted by the backward scan when `start > 0 and
end < len(text)`. -/
def chunkEnd (text : Str) (size : Nat) (start : Int) : Int :=
  let end0 : Int := min (start + (size : Int)) (text.length : Int)
  if 0 < start ∧ end0 < (text.length : Int) then findBreak text start end0
  else end0

/-- Advancement of the loop variable (line 214): `start = end -
chunk_overlap if end < len(text) else end`. -/
def nextStart (text : Str) (overlap : Nat) (e : Int) : Int :=
  if e < (text.length : Int) then e - (overlap : Int) else e

/-- The `while start < len(text)` loop of `_chunk_text` (lines 197-214) with
an explicit fuel parameter: each iteration appends `text[start:end].strip()`
and advances `start`.  `none` means the fuel ran out before the loop
finished; the loop of the source has no other exit, so a run that yields
`none` for every fuel is a non-terminating execution. -/
def chunkAux (size overlap : Nat) (text : Str) :
    Nat → Int → List Str → Option (List Str)
  | 0, _, _ => none
  | fuel + 1, start, chunks =>
    if start < (text.length : Int) then
      let e := chunkEnd text size start
      chunkAux size overlap text fuel (nextStart text overlap e)
        (chunks ++ [pyStrip (pySlice text start e)])
    else some chunks

/-- Variant of `chunkAux` recording the raw slices `text[start:end]` before
the `.strip()` of line 211 is applied; used to state how the produced chunks
relate to the normalised text. -/
def rawChunkAux (size overlap : Nat) (text : Str) :
    Nat → Int → List Str → Option (List Str)
  | 0, _, _ => none
  | fuel + 1, start, chunks =>
    if start < (text.length : Int) then
      let e := chunkEnd text size start
      rawChunkAux size overlap text fuel (nextStart text overlap e)
        (chunks ++ [pySlice text start e])
    else some chunks

/-- Embedding of `DocumentProcessor._chunk_text` (lines 178-216): empty input
returns `[]` (line 187-188), otherwise the text is whitespace-normalised
(line 191) and the loop runs from `start = 0` with an explicit fuel. -/
def chunk_text (size overlap fuel : Nat) (text : Str) : Option (List Str) :=
  if text = [] then some []
  else chunkAux size overlap (normalizeWs text) fuel 0 []

/-- Reassembly of a chunk sequence as described by the specification:
concatenate, dropping the first `overlap` characters of every chunk after the
first. -/
def reconstruct (overlap : Nat) : List Str → Str
  | [] => []
  | c :: rest => c ++ (rest.map (fun x => x.drop overlap)).flatten

/-! ## `app/services/documents/service.py`: `DocumentService` -/

/-- Stored document record of `DocumentService` (the dict built by
`create_document`, service.py lines 134-147), restricted to the fields read by
the operations under verification. -/
structure StoredDoc where
  name : Str := []
  content : Str := []
  dataset_id : Option Str := none
  tags : List Str := []
  favorite : Bool := false
  embedding : Bool := false
deriving DecidableEq

/-- Record of the pydantic model `DocumentInfo` (schemas/document.py lines
66-87, `DocumentBase` plus the `DocumentInfo` extras, without the tag
objects).  The required inherited fields are `title` and `content`; there is
no field `name`. -/
structure DocumentInfo where
  title : Str
  content : Str
  dataset_id : Option Str := none
  tag_ids : Option (List Str) := none
  is_favorite : Bool := false
  id : Str := []
  dateAdded : Str := []
  embedding : Bool := false
  summary : Option Str := none
  favorite : Bool := false
deriving DecidableEq

/-- Pydantic construction of `DocumentInfo`: unknown keyword arguments (such
as `name` and `type`, which are not declared fields) are ignored by the
default model config, and a missing required field raises
`ValidationError`.  The two call sites in `_document_dict_to_info` supply
`content` but never `title`, so both raise. -/
def documentInfoNew (title content : Option Str) (id dateAdded : Str)
    (embedding : Bool) (dataset_id : Option Str) (favorite : Bool)
    (summary : Option Str) : Except Str DocumentInfo :=
  match title, content with
  | some t, some c =>
    Except.ok { title := t, content := c, id := id, dateAdded := dateAdded,
                embedding := embedding, dataset_id := dataset_id,
                favorite := favorite, summary := summary }
  | none, _ => Except.error "validation error: title field required".data
  | _, none => Except.error "validation error: content field required".data

/-- Embedding of `DocumentService._document_dict_to_info` (service.py lines
720-786).  The main `DocumentInfo(...)` call (lines 763-775) passes `id`,
`name`, `type`, `content`, `dateAdded`, `embedding`, `metadata`, `tags`,
`summary`, `dataset_id`, `favorite` — but not the required `title`, so
pydantic raises `ValidationError`; the `except` fallback (lines 779-786)
builds another `DocumentInfo` again without `title`, so the fallback also
raises and the exception propagates to the caller. -/
def document_dict_to_info (docId : Str) (d : StoredDoc) : Except Str DocumentInfo :=
  match documentInfoNew none (some d.content) docId [] false d.dataset_id
      d.favorite none with
  | Except.ok i => Except.ok i
  | Except.error _ =>
    documentInfoNew none (some "Error reading document content".data) docId []
      false none false none

/-- Embedding of `DocumentService.get_document` (service.py lines 185-226)
for a stored document: the content is already cached in the record, and the
final `_document_dict_to_info` raises, which the outer `except` turns into
`None`.  (For an absent id the caller composes with a dictionary lookup.) -/
def get_document (docId : Str) (d : StoredDoc) : Option DocumentInfo :=
  match document_dict_to_info docId d with
  | Except.ok i => some i
  | Except.error _ => none

/-- Python truthiness of an optional string (`if dataset_id:`): `None` and
the empty string are falsy. -/
def truthyStr : Option Str → Bool
  | none => false
  | some s => !(s == [])

/-- Stable descending insertion used to model CPython's `list.sort(key=...,
reverse=True)`: a new element is placed after every element whose key is
greater than or equal to its own, so equal keys keep their original relative
order and keys are descending. -/
def insertDescBy [LinearOrder β] (key : α → β) (x : α) : List α → List α
  | [] => [x]
  | y :: ys => if key y < key x then x :: y :: ys else y :: insertDescBy key x ys

/-- Stable descending sort by key (model of `list.sort(key=..., reverse=True)`). -/
def pySortDescBy [LinearOrder β] (key : α → β) (l : List α) : List α :=
  l.foldl (fun acc x => insertDescBy key x acc) []

/-- Embedding of `DocumentService.search_documents` (service.py lines
416-487).  Candidates are filtered by dataset and tags (lines 422-433);
documents with an embedding flag and an existing embedding file are collected
(lines 436-441).  If there is none, the fallback (lines 443-455) walks the
candidates: `get_document` always returns `None` (see
`document_dict_to_info`), and if it ever returned a document the attribute
access `document.name` would raise `AttributeError` (no such field on
`DocumentInfo`), caught by the outer `except` which returns `[]`.  Otherwise
the embedded candidates are scored by `calculate_similarity` (abstracted as
the oracle `simScore`, a per-document float score), sorted descending
(stable), and the first `limit` ids are resolved through `get_document`. -/
def service_search (query : Str) (documents : List (Str × StoredDoc))
    (dataset_id : Option Str) (tag_ids : Option (List Str)) (limit : Nat)
    (hasEmbeddingFile : Str → Bool) (simScore : Str → ℚ) : List DocumentInfo :=
  let candidates := documents.filter (fun kv =>
    (if truthyStr dataset_id then kv.2.dataset_id == dataset_id else true) &&
    (match tag_ids with
     | some ts => if ts == [] then true else ts.all (fun t => kv.2.tags.contains t)
     | none => true))
  let embedded := candidates.filter (fun kv => kv.2.embedding && hasEmbeddingFile kv.1)
  if embedded == [] then
    let query_lower := pyLowerStr query
    let _ := query_lower
    let folded : Except Str (List DocumentInfo) := candidates.foldlM
      (fun acc kv =>
        match get_document kv.1 kv.2 with
        | some _ => Except.error "AttributeError: DocumentInfo has no attribute name".data
        | none => Except.ok acc) []
    match folded with
    | Except.ok results => results.take limit
    | Except.error _ => []
  else
    let scores := embedded.map (fun kv => (kv.1, simScore kv.1))
    let sorted := pySortDescBy (fun x => x.2) scores
    (sorted.take limit).filterMap (fun is =>
      (documents.lookup is.1).bind (fun d => get_document is.1 d))

/-! ## `app/services/document_service.py`: database-backed search -/

/-- Document record of the JSON database used by
`app/services/document_service.py` (the dict of its `create_document`),
restricted to the fields read by `search_documents`. -/
structure DBDoc where
  title : Str := []
  content : Str := []
  dataset_id : Option Str := none
  tag_ids : List Str := []
deriving DecidableEq

/-- Embedding of `search_documents` of `app/services/document_service.py`
(lines 166-215): filter by dataset and tags, keep documents whose lowercased
title or content contains the lowercased query, score them (10 for a title
hit plus 5 for a content hit), sort by score descending with CPython's stable
sort, and return the first `limit`. -/
def basic_search (query : Str) (documents : List DBDoc)
    (dataset_id : Option Str) (tag_ids : Option (List Str)) (limit : Nat) :
    List DBDoc :=
  let docs1 := if truthyStr dataset_id
    then documents.filter (fun d => d.dataset_id == dataset_id)
    else documents
  let docs2 := match tag_ids with
    | some ts =>
      if ts == [] then docs1
      else docs1.filter (fun d => ts.any (fun t => d.tag_ids.contains t))
    | none => docs1
  let q := pyLowerStr query
  let results := docs2.filterMap (fun d =>
    let title := pyLowerStr d.title
    let content := pyLowerStr d.content
    if pyContains title q || pyContains content q then
      some (d, (if pyContains title q then 10 else 0)
        + (if pyContains content q then 5 else 0))
    else none)
  ((pySortDescBy (fun x => x.2) results).take limit).map (fun x => x.1)

/-! ## `DocumentService` dataset/tag document counts -/

/-- State of `DocumentService` relevant to the `document_count` invariant:
the documents dictionary plus, for each dataset id and tag id, its
`document_count` (a Python `int`); the remaining dataset/tag fields are not
touched by the operations below. -/
structure ServiceState where
  documents : List (Str × StoredDoc) := []
  datasets : List (Str × Int) := []
  tags : List (Str × Int) := []
deriving DecidableEq

/-- Duck-typed view of the `DocumentCreate` argument of
`DocumentService.create_document`: the attributes the function reads
(`doc.name`, `doc.content`, `doc.dataset_id`, `doc.tags`).  (The pydantic
schema `DocumentCreate` declares `title`/`tag_ids` instead of
`name`/`tags`; if the attribute access raised, the operation would leave the
counts untouched, which also preserves the invariant, so the richer
duck-typed behaviour is the stronger case to verify.) -/
structure DocCreatePayload where
  name : Str := []
  content : Str := []
  dataset_id : Option Str := none
  tags : List Str := []

/-- `dict[key]["document_count"] += 1` guarded by `if key in dict` (the map
leaves every other entry unchanged, and changes nothing when the key is
absent). -/
def bumpIfPresent (key : Str) (l : List (Str × Int)) : List (Str × Int) :=
  l.map (fun kv => if kv.1 = key then (kv.1, kv.2 + 1) else kv)

/-- `if key in dict and dict[key]["document_count"] > 0:
dict[key]["document_count"] -= 1` (service.py lines 286-287 and 339-340). -/
def decIfPositive (key : Str) (l : List (Str × Int)) : List (Str × Int) :=
  l.map (fun kv => if kv.1 = key ∧ 0 < kv.2 then (kv.1, kv.2 - 1) else kv)

/-- `dict[key]["document_count"] = max(0, dict[key]["document_count"] - 1)`
guarded by presence (service.py lines 302 and 333). -/
def decFloorZero (key : Str) (l : List (Str × Int)) : List (Str × Int) :=
  l.map (fun kv => if kv.1 = key then (kv.1, max 0 (kv.2 - 1)) else kv)

/-- Embedding of the state effect of `DocumentService.create_document`
(service.py lines 124-183): store the new document, increment the dataset
count when `doc.dataset_id` is truthy and present (lines 168-170), increment
the count of each listed tag that exists (lines 173-177; duplicates in
`doc.tags` increment repeatedly, as in the source). -/
def create_document (st : ServiceState) (docId : Str) (p : DocCreatePayload) :
    ServiceState :=
  let document : StoredDoc :=
    { name := p.name, content := p.content, dataset_id := p.dataset_id,
      tags := p.tags }
  let datasets1 := match p.dataset_id with
    | some ds => if ds ≠ [] then bumpIfPresent ds st.datasets else st.datasets
    | none => st.datasets
  let tags1 := p.tags.foldl (fun acc tagId => bumpIfPresent tagId acc) st.tags
  { documents := st.documents ++ [(docId, document)],
    datasets := datasets1, tags := tags1 }

/-- Update payload of `DocumentService.update_document`: which keys appear in
the `updates` dictionary (only fields of the stored document may change,
line 314). -/
structure UpdatePayload where
  content : Option Str := none
  tags : Option (List Str) := none
  dataset_id : Option (Option Str) := none
  favorite : Option Bool := none

/-- Embedding of the state effect of `DocumentService.update_document`
(service.py lines 257-321).  Tag counts: `old_tags`/`new_tags` are Python
sets (modelled by `dedup`); removed tags are decremented when positive,
added tags incremented when present (lines 280-295).  Dataset counts: when
`dataset_id` is among the updates and differs, the old dataset count drops
with a floor of zero and the new one increments (lines 297-310).  Finally
every updated key that is a field of the document is written (lines
312-315). -/
def update_document (st : ServiceState) (docId : Str) (u : UpdatePayload) :
    ServiceState :=
  match st.documents.lookup docId with
  | none => st
  | some document =>
    let doc1 := match u.content with
      | some c => { document with content := c }
      | none => document
    let old_tags := document.tags.dedup
    let tags1 := match u.tags with
      | some newList =>
        let new_tags := newList.dedup
        let afterDec := (old_tags.filter (fun t => !(new_tags.contains t))).foldl
          (fun acc t => decIfPositive t acc) st.tags
        (new_tags.filter (fun t => !(old_tags.contains t))).foldl
          (fun acc t => bumpIfPresent t acc) afterDec
      | none => st.tags
    let old_ds := document.dataset_id
    let datasets1 := match u.dataset_id with
      | some nds =>
        if nds ≠ old_ds then
          let d1 := match old_ds with
            | some od => if od ≠ [] then decFloorZero od st.datasets else st.datasets
            | none => st.datasets
          match nds with
          | some nd => if nd ≠ [] then bumpIfPresent nd d1 else d1
          | none => d1
        else st.datasets
      | none => st.datasets
    let doc2 : StoredDoc :=
      { doc1 with tags := (u.tags).getD doc1.tags,
                  dataset_id := (u.dataset_id).getD doc1.dataset_id,
                  favorite := (u.favorite).getD doc1.favorite }
    { documents := st.documents.map (fun kv => if kv.1 = docId then (docId, doc2) else kv),
      datasets := datasets1, tags := tags1 }

/-- Embedding of the state effect of `DocumentService.delete_document`
(service.py lines 323-358): the dataset count drops with a floor of zero
(lines 331-334), each tag occurrence of the document (not deduplicated,
line 337-340) is decremented when positive, and the document is removed. -/
def delete_document (st : ServiceState) (docId : Str) : ServiceState :=
  match st.documents.lookup docId with
  | none => st
  | some document =>
    let datasets1 := match document.dataset_id with
      | some ds => if ds ≠ [] then decFloorZero ds st.datasets else st.datasets
      | none => st.datasets
    let tags1 := document.tags.foldl (fun acc t => decIfPositive t acc) st.tags
    { documents := st.documents.filter (fun kv => !(kv.1 == docId)),
      datasets := datasets1, tags := tags1 }

/-- Invariant claimed for the per-dataset and per-tag `document_count`
fields: none is negative. -/
def countsNonneg (st : ServiceState) : Prop :=
  (∀ kv ∈ st.datasets, 0 ≤ kv.2) ∧ (∀ kv ∈ st.tags, 0 ≤ kv.2)

instance : DecidablePred countsNonneg := fun st => by
  unfold countsNonneg
  infer_instance

/-! ## Concrete inputs used by witnesses and counterexamples -/

/-- Oracle whose `.pdf` branch raises while every other branch is inert. -/
def oracleW : LibOracle where
  chardetEncoding := fun _ => none
  decodeBytes := fun _ _ => DecodeResult.otherError "nope".data
  latin1Decode := fun _ => []
  pdfExtract := fun _ _ => Except.error "boom".data
  docxExtract := fun _ _ => Except.ok ([], {})
  mdExtract := fun _ _ => Except.ok ([], {})
  csvExtract := fun _ _ => Except.ok ([], {})
  excelExtract := fun _ _ => Except.ok ([], {})
  jsonExtract := fun _ _ => Except.ok ([], {})
  htmlExtract := fun _ _ => Except.ok ([], {})
  xmlExtract := fun _ _ => Except.ok ([], {})
  pptExtract := fun _ _ => Except.ok ([], {})
  ebookExtract := fun _ _ => Except.ok ([], {})

/-- Stored document of the specification's `finland` scenario whose name
matches the query but whose content does not. -/
def finlandTitleDoc : StoredDoc :=
  { name := "Finland Education System".data,
    content := "A broad overview of schooling.".data }

/-- Stored document whose content matches the query but whose name does not. -/
def finlandBodyDoc : StoredDoc :=
  { name := "Random Notes".data,
    content := "General education in finland is free.".data }

/-- Database-backed variant of `finlandTitleDoc`. -/
def finlandTitleDB : DBDoc :=
  { title := "Finland Education System".data,
    content := "A broad overview of schooling.".data }

/-- Database-backed variant of `finlandBodyDoc`. -/
def finlandBodyDB : DBDoc :=
  { title := "Random Notes".data,
    content := "General education in finland is free.".data }

/-- Stored document matching the query `"a"` in name and content. -/
def matchDoc : StoredDoc := { name := "alpha".data, content := "banana".data }

/-- Corpus of ten stored documents all matching the query `"a"`. -/
def tenDocs : List (Str × StoredDoc) :=
  [("d0".data, matchDoc), ("d1".data, matchDoc), ("d2".data, matchDoc),
   ("d3".data, matchDoc), ("d4".data, matchDoc), ("d5".data, matchDoc),
   ("d6".data, matchDoc), ("d7".data, matchDoc), ("d8".data, matchDoc),
   ("d9".data, matchDoc)]

/-- Database-backed document matching the query `"a"`. -/
def matchDB : DBDoc := { title := "alpha".data, content := "banana".data }

/-- Corpus of ten database-backed documents all matching the query `"a"`. -/
def tenDBDocs : List DBDoc := List.replicate 10 matchDB

/-- Text on which the chunk loop with `chunk_size = 101`, `overlap = 100`
stops advancing: from `start = 1` the backward scan always cuts at the dot
(index 100), so `start` is reassigned `101 - 100 = 1` forever. -/
def chunkCycleText : Str := List.replicate 100 'a' ++ '.' :: List.replicate 9 'a'

/-- Text whose first window `[0:1000]` ends with a space: the `.strip()` of
line 211 removes it, so reassembling the stripped chunks loses the space at
position 999 of the normalised text. -/
def chunkStripText : Str :=
  List.replicate 999 'a' ++ ' ' :: List.replicate 200 'b'

/-- First chunk produced on `chunkStripText` (stripped form). -/
def stripChunk1 : Str := List.replicate 999 'a'

/-- Second chunk produced on `chunkStripText`. -/
def stripChunk2 : Str := List.replicate 199 'a' ++ ' ' :: List.replicate 200 'b'

/-- Small document-service state with one document, one dataset and one tag. -/
def stW : ServiceState :=
  { documents := [("d1".data,
      { name := "n".data, dataset_id := some "ds".data, tags := ["t".data] })],
    datasets := [("ds".data, 1)], tags := [("t".data, 0)] }

/-- Creation payload referencing the dataset and tag of `stW`. -/
def payloadW : DocCreatePayload :=
  { name := "m".data, content := "c".data, dataset_id := some "ds".data,
    tags := ["t".data, "t".data] }

/-- Update payload removing the tag and the dataset of the document of `stW`. -/
def updateW : UpdatePayload :=
  { tags := some [], dataset_id := some none }

/-! ## Helper lemmas -/

theorem process_text_metadata_id (content : Str) (md : DocumentMetadata) :
    process_text_metadata content md = md := rfl

theorem char_toNat_ofNat (n : Nat) (h : n.isValidChar) : (Char.ofNat n).toNat = n := by
  have h32 : n < 4294967296 := by
    rcases h with h | h <;> omega
  simp [Char.ofNat, h, Char.ofNatAux, Char.toNat, UInt32.toNat, Nat.mod_eq_of_lt h32]

theorem char_toLower_idem (c : Char) : c.toLower.toLower = c.toLower := by
  by_cases h : 65 ≤ c.toNat ∧ c.toNat ≤ 90
  · have hv : (c.toNat + 32).isValidChar := by left; omega
    have ht := char_toNat_ofNat (c.toNat + 32) hv
    have hc : c.toLower = Char.ofNat (c.toNat + 32) := by
      unfold Char.toLower
      rw [if_pos ⟨h.1, h.2⟩]
    rw [hc]
    unfold Char.toLower
    rw [if_neg (by rw [ht]; omega)]
  · have hc : c.toLower = c := by
      unfold Char.toLower
      rw [if_neg (by omega)]
    rw [hc, hc]

theorem pyLowerStr_idem (s : Str) : pyLowerStr (pyLowerStr s) = pyLowerStr s := by
  unfold pyLowerStr
  induction s with
  | nil => rfl
  | cons c s ih => simp only [List.map_cons, char_toLower_idem, List.map_map] at ih ⊢; rw [ih]

theorem lookup_eq_none_of_not_mem {β : Type} (l : List (Str × β)) (k : Str)
    (h : k ∉ l.map Prod.fst) : l.lookup k = none := by
  induction l with
  | nil => rfl
  | cons p l ih =>
    obtain ⟨a, b⟩ := p
    simp only [List.map_cons, List.mem_cons] at h
    push_neg at h
    simp only [List.lookup]
    rw [show (k == a) = false from beq_eq_false_iff_ne.mpr h.1]
    exact ih h.2

/-! ## C6 -/

/-- C6: the claim states that metadata enrichment sets `word_count` to the
whitespace-token count and the reading time to `ceil(word_count / 200)`.  In
this backend it does neither: `word_count` is not a declared field of the
pydantic model `DocumentMetadata`, the assignment raises `ValueError`, and
`process_text_metadata` returns its input metadata unchanged for every
input, including the failing input `"hello world"`. -/
theorem c6_enrichment_never_sets_word_count :
    (process_text_metadata "hello world".data {} = {}) ∧
    ∀ (content : Str) (md : DocumentMetadata), process_text_metadata content md = md :=
  ⟨rfl, fun _ _ => rfl⟩

/-! ## C7 -/

/-- C7: the format detector never throws (it is a total function), maps
extensions case-insensitively (`detect e = detect (lowercase e)`), maps every
key of the extension dictionary to its document type, and returns `other` for
every extension whose lowercase form is not a key. -/
theorem c7_extension_detection (e : Str)
    (he : pyLowerStr e ∉ extension_map.map Prod.fst) :
    get_document_type_from_extension e = DocumentType.other ∧
    (∀ e2 : Str, get_document_type_from_extension e2 =
      get_document_type_from_extension (pyLowerStr e2)) ∧
    (∀ k t, (k, t) ∈ extension_map → get_document_type_from_extension k = t) := by
  refine ⟨?_, ?_, ?_⟩
  · unfold get_document_type_from_extension
    rw [lookup_eq_none_of_not_mem _ _ he]
  · intro e2
    unfold get_document_type_from_extension
    rw [pyLowerStr_idem]
  · intro k t h
    fin_cases h <;> decide

/-- Witness for C7 at the unrecognised extension `"TXT2"`. -/
theorem c7_extension_detection_witness :
    get_document_type_from_extension "TXT2".data = DocumentType.other ∧
    (∀ e2 : Str, get_document_type_from_extension e2 =
      get_document_type_from_extension (pyLowerStr e2)) ∧
    (∀ k t, (k, t) ∈ extension_map → get_document_type_from_extension k = t) :=
  c7_extension_detection "TXT2".data (by decide)

/-! ## C8 -/

/-- C8: the claim states the JSON extractor returns the pretty-printed JSON,
truncated at 10000 characters with a marker.  In fact, for every input the
later assignment `metadata.description = ...` raises (no such pydantic
field), the exception is caught, and the returned text is always the
diagnostic string — never the (truncated) pretty-printed JSON that the
`content` variable holds. -/
theorem c8_json_extractor_returns_error_text :
    ∀ (formatted_json : Str) (isArray : Bool) (md : DocumentMetadata),
      extract_from_json formatted_json isArray md =
        ("Error extracting text: ".data ++ pydanticNoFieldMsg "description".data, md) :=
  fun _ _ _ => rfl

/-! ## C4 -/

theorem sumSq_replicate_zero (n : Nat) : sumSq (List.replicate n (0:ℚ)) = 0 := by
  induction n with
  | zero => rfl
  | succ n ih => simpa [sumSq, List.replicate_succ] using ih

theorem npDot_replicate_zero (b : List ℚ) :
    npDot (List.replicate b.length (0:ℚ)) b = 0 := by
  induction b with
  | nil => rfl
  | cons x b ih => simpa [npDot, List.replicate_succ] using ih

/-- C4: the claim states the similarity returns `0.0` when either vector has
zero norm.  In fact numpy division by a zero norm product yields `nan`
without raising, so the `except` clause returning `0.0` never runs: at the
failing input `([0.0], [1.0])` the result is `nan`, which differs from `0.0`,
and more generally every query vector of zero norm yields `nan`. -/
theorem c4_zero_norm_yields_nan :
    (calculate_similarity [(0:ℚ)] [1] = SimValue.nan) ∧
    (SimValue.nan ≠ SimValue.val 0 1) ∧
    ∀ b : List ℚ, calculate_similarity (List.replicate b.length 0) b = SimValue.nan := by
  have main : ∀ b : List ℚ,
      calculate_similarity (List.replicate b.length 0) b = SimValue.nan := by
    intro b
    unfold calculate_similarity
    rw [if_pos (List.length_replicate _ _)]
    rw [if_pos (Or.inl (sumSq_replicate_zero _))]
    rw [if_pos (npDot_replicate_zero b)]
  refine ⟨?_, by simp, main⟩
  have h := main [1]
  simpa using h

/-- Justification of the zero-norm test used in the embedding of
`calculate_similarity`: the real norm product `sqrt (sumSq a) * sqrt (sumSq
b)` vanishes exactly when one of the rational sums of squares does. -/
theorem norm_zero_iff_sumSq (a b : List ℚ) :
    Real.sqrt (sumSq a : ℝ) * Real.sqrt (sumSq b : ℝ) = 0 ↔
      sumSq a = 0 ∨ sumSq b = 0 := by
  have key : ∀ v : List ℚ, (0:ℚ) ≤ sumSq v := by
    intro v
    unfold sumSq
    apply List.sum_nonneg
    intro x hx
    simp only [List.mem_map] at hx
    obtain ⟨y, _, rfl⟩ := hx
    exact mul_self_nonneg y
  have ha : (0:ℝ) ≤ (sumSq a : ℝ) := by exact_mod_cast key a
  have hb : (0:ℝ) ≤ (sumSq b : ℝ) := by exact_mod_cast key b
  rw [mul_eq_zero, Real.sqrt_eq_zero ha, Real.sqrt_eq_zero hb]
  constructor
  · rintro (h | h)
    · exact Or.inl (by exact_mod_cast h)
    · exact Or.inr (by exact_mod_cast h)
  · rintro (h | h)
    · exact Or.inl (by exact_mod_cast h)
    · exact Or.inr (by exact_mod_cast h)

/-! ## C1 -/

/-- C1: the extraction entry point is total — for every oracle behaviour of
the external libraries, every byte input and every filename it returns a
`(text, metadata)` pair; when the dispatched branch raises, the result is the
diagnostic string `"Error extracting text from file: ..."` with the metadata
built before the `try` block, and when the branch returns normally its result
is passed through. -/
theorem c1_extract_never_raises (o : LibOracle) (fileBytes : List Nat) (filename : Str) :
    (∃ t m, extract_text_from_file o fileBytes filename = (t, m)) ∧
    (∀ e, extractBody o fileBytes (pyLowerStr (pySplitext filename).2) {} = Except.error e →
      extract_text_from_file o fileBytes filename =
        ("Error extracting text from file: ".data ++ e, {})) ∧
    (∀ r, extractBody o fileBytes (pyLowerStr (pySplitext filename).2) {} = Except.ok r →
      extract_text_from_file o fileBytes filename = r) := by
  refine ⟨⟨_, _, rfl⟩, ?_, ?_⟩
  · intro e h
    simp only [extract_text_from_file, h]
  · intro r h
    simp only [extract_text_from_file, h]

/-- Witness for C1: with an oracle whose PDF library raises `"boom"`, the
entry point still returns a pair, whose text is the diagnostic string. -/
theorem c1_extract_never_raises_witness :
    extract_text_from_file oracleW [] "a.pdf".data =
      ("Error extracting text from file: ".data ++ "boom".data, {}) :=
  (c1_extract_never_raises oracleW [] "a.pdf".data).2.1 "boom".data rfl

/-! ## C3 -/

/-- C3: the claim states that the no-embedding fallback performs substring
matching and ranks a title match strictly above a content-only match.  At the
specification's own scenario (query `"finland"`, one name/title match and one
body-only match, no embeddings) `DocumentService.search_documents` returns
`[]` — `get_document` always fails because `_document_dict_to_info` never
supplies the required pydantic field `title` — so nothing is ranked at all.
The sibling database-backed `search_documents` of
`app/services/document_service.py` does rank the title match first, via
scores 10 (title) versus 5 (content-only). -/
theorem c3_fallback_ranking :
    service_search "finland".data
        [("doc1".data, finlandBodyDoc), ("doc2".data, finlandTitleDoc)]
        none none 10 (fun _ => false) (fun _ => 0) = [] ∧
    basic_search "finland".data [finlandBodyDB, finlandTitleDB] none none 10 =
      [finlandTitleDB, finlandBodyDB] := by
  constructor
  · rfl
  · decide

/-! ## C9 -/

/-- C9: the claim states the selector returns exactly `limit` items whenever
at least `limit` candidates match, under both paths.  In
`DocumentService.search_documents` this fails: ten matching candidates with
`limit = 3` yield `[]` (zero items), because `get_document` always returns
`None` (missing pydantic `title`).  The database-backed `search_documents`
does honour the limit: the same corpus yields exactly 3, and for every query,
corpus, filters and limit its result has length at most `limit`. -/
theorem c9_limit_behaviour :
    service_search "a".data tenDocs none none 3 (fun _ => false) (fun _ => 0) = [] ∧
    (basic_search "a".data tenDBDocs none none 3).length = 3 ∧
    ∀ (q : Str) (docs : List DBDoc) (ds : Option Str) (ts : Option (List Str))
      (lim : Nat), (basic_search q docs ds ts lim).length ≤ lim := by
  refine ⟨by rfl, by decide, ?_⟩
  intro q docs ds ts lim
  simp only [basic_search]
  rw [List.length_map]
  exact List.length_take_le _ _

/-! ## C10 -/

theorem iteCounts_nonneg {c : Prop} [Decidable c] {A B : List (Str × Int)}
    (hA : ∀ kv ∈ A, 0 ≤ kv.2) (hB : ∀ kv ∈ B, 0 ≤ kv.2) :
    ∀ kv ∈ (if c then A else B), 0 ≤ kv.2 := by
  split
  · exact hA
  · exact hB

theorem bumpIfPresent_nonneg {l : List (Str × Int)} (h : ∀ kv ∈ l, 0 ≤ kv.2)
    (k : Str) : ∀ kv ∈ bumpIfPresent k l, 0 ≤ kv.2 := by
  intro kv hkv
  unfold bumpIfPresent at hkv
  simp only [List.mem_map] at hkv
  obtain ⟨x, hx, heq⟩ := hkv
  have hx2 := h x hx
  by_cases hc : x.1 = k
  · rw [if_pos hc] at heq
    subst heq
    simp only
    omega
  · rw [if_neg hc] at heq
    exact heq ▸ hx2

theorem decIfPositive_nonneg {l : List (Str × Int)} (h : ∀ kv ∈ l, 0 ≤ kv.2)
    (k : Str) : ∀ kv ∈ decIfPositive k l, 0 ≤ kv.2 := by
  intro kv hkv
  unfold decIfPositive at hkv
  simp only [List.mem_map] at hkv
  obtain ⟨x, hx, heq⟩ := hkv
  have hx2 := h x hx
  by_cases hc : x.1 = k ∧ 0 < x.2
  · rw [if_pos hc] at heq
    subst heq
    simp only
    omega
  · rw [if_neg hc] at heq
    exact heq ▸ hx2

theorem decFloorZero_nonneg {l : List (Str × Int)} (h : ∀ kv ∈ l, 0 ≤ kv.2)
    (k : Str) : ∀ kv ∈ decFloorZero k l, 0 ≤ kv.2 := by
  intro kv hkv
  unfold decFloorZero at hkv
  simp only [List.mem_map] at hkv
  obtain ⟨x, hx, heq⟩ := hkv
  have hx2 := h x hx
  by_cases hc : x.1 = k
  · rw [if_pos hc] at heq
    subst heq
    simp only
    omega
  · rw [if_neg hc] at heq
    exact heq ▸ hx2

theorem foldl_bump_nonneg (ts : List Str) {l : List (Str × Int)}
    (h : ∀ kv ∈ l, 0 ≤ kv.2) :
    ∀ kv ∈ ts.foldl (fun acc t => bumpIfPresent t acc) l, 0 ≤ kv.2 := by
  induction ts generalizing l with
  | nil => exact h
  | cons t ts ih => exact ih (bumpIfPresent_nonneg h t)

theorem foldl_dec_nonneg (ts : List Str) {l : List (Str × Int)}
    (h : ∀ kv ∈ l, 0 ≤ kv.2) :
    ∀ kv ∈ ts.foldl (fun acc t => decIfPositive t acc) l, 0 ≤ kv.2 := by
  induction ts generalizing l with
  | nil => exact h
  | cons t ts ih => exact ih (decIfPositive_nonneg h t)

/-- C10: starting from a state whose per-dataset and per-tag
`document_count` values are all non-negative (as they are in any state
consistent with the stored documents), each of `create_document`,
`update_document` and `delete_document` preserves non-negativity, for every
document id, creation payload and update payload: every decrement in the
source is guarded (`> 0` for tags, `max(0, ...)` for datasets), and
increments only grow the counts. -/
theorem c10_document_counts_nonneg (st : ServiceState) (docId : Str)
    (p : DocCreatePayload) (u : UpdatePayload) (h : countsNonneg st) :
    countsNonneg (create_document st docId p) ∧
    countsNonneg (update_document st docId u) ∧
    countsNonneg (delete_document st docId) := by
  obtain ⟨hds, htg⟩ := h
  refine ⟨⟨?_, ?_⟩, ?_, ?_⟩
  · unfold create_document
    rcases p.dataset_id with _ | ds
    · exact hds
    · exact iteCounts_nonneg (bumpIfPresent_nonneg hds ds) hds
  · unfold create_document
    exact foldl_bump_nonneg p.tags htg
  · unfold update_document
    cases hl : st.documents.lookup docId with
    | none => exact ⟨hds, htg⟩
    | some document =>
      simp only
      constructor
      · rcases u.dataset_id with _ | nds
        · exact hds
        · simp only
          refine iteCounts_nonneg ?_ hds
          have hd1 : ∀ kv ∈ (match document.dataset_id with
              | some od => if od ≠ [] then decFloorZero od st.datasets else st.datasets
              | none => st.datasets), 0 ≤ kv.2 := by
            rcases document.dataset_id with _ | od
            · exact hds
            · exact iteCounts_nonneg (decFloorZero_nonneg hds od) hds
          rcases nds with _ | nd
          · exact hd1
          · exact iteCounts_nonneg (bumpIfPresent_nonneg hd1 nd) hd1
      · rcases u.tags with _ | newList
        · exact htg
        · exact foldl_bump_nonneg _ (foldl_dec_nonneg _ htg)
  · unfold delete_document
    cases hl : st.documents.lookup docId with
    | none => exact ⟨hds, htg⟩
    | some document =>
      simp only
      constructor
      · rcases document.dataset_id with _ | ds
        · exact hds
        · exact iteCounts_nonneg (decFloorZero_nonneg hds ds) hds
      · exact foldl_dec_nonneg _ htg

/-- Witness for C10 at a concrete one-document state with counts `1` and `0`. -/
theorem c10_document_counts_nonneg_witness :
    countsNonneg (create_document stW "d1".data payloadW) ∧
    countsNonneg (update_document stW "d1".data updateW) ∧
    countsNonneg (delete_document stW "d1".data) :=
  c10_document_counts_nonneg stW "d1".data payloadW updateW (by decide)

/-! ## Chunker lemmas -/

theorem pyClamp_nonneg (len : Nat) (a : Int) (h : 0 ≤ a) :
    pyClamp len a = min a.toNat len := by
  unfold pyClamp
  rw [if_neg (by omega)]

theorem take_min_length (xs : Str) (m : Nat) : xs.take (min m xs.length) = xs.take m := by
  rcases le_total m xs.length with h | h
  · rw [min_eq_left h]
  · rw [min_eq_right h, List.take_length, List.take_of_length_le h]

theorem drop_min_length (xs : Str) (len m : Nat) (h : xs.length ≤ len) :
    xs.drop (min m len) = xs.drop m := by
  rcases le_total m len with h2 | h2
  · rw [min_eq_left h2]
  · rw [min_eq_right h2, List.drop_eq_nil_of_le h,
      List.drop_eq_nil_of_le (le_trans h h2)]

theorem pySlice_eq (xs : Str) (a b : Int) (ha : 0 ≤ a) (hb : 0 ≤ b) :
    pySlice xs a b = (xs.take b.toNat).drop a.toNat := by
  unfold pySlice
  rw [pyClamp_nonneg _ _ ha, pyClamp_nonneg _ _ hb, take_min_length]
  exact drop_min_length _ _ _ (by rw [List.length_take]; omega)

theorem pySlice_append_drop (xs : Str) (a b : Int) (ha : 0 ≤ a) (hab : a ≤ b)
    (hb : b ≤ (xs.length : Int)) :
    pySlice xs a b ++ xs.drop b.toNat = xs.drop a.toNat := by
  rw [pySlice_eq xs a b ha (le_trans ha hab), List.drop_take]
  have hd : xs.drop b.toNat = (xs.drop a.toNat).drop (b.toNat - a.toNat) := by
    rw [List.drop_drop]
    congr 1
    omega
  rw [hd, List.take_append_drop]

theorem drop_pySlice (xs : Str) (a b : Int) (ha : 0 ≤ a) (hb : 0 ≤ b) (ov : Nat) :
    (pySlice xs a b).drop ov = pySlice xs (a + (ov : Int)) b := by
  rw [pySlice_eq xs a b ha hb, pySlice_eq xs _ b (by omega) hb, List.drop_drop]
  congr 1
  omega

theorem mem_pyRangeDown {hi lo i : Int} (h : i ∈ pyRangeDown hi lo) :
    lo < i ∧ i ≤ hi := by
  unfold pyRangeDown at h
  obtain ⟨k, hk, hkeq⟩ := List.mem_map.mp h
  rw [List.mem_range] at hk
  subst hkeq
  omega

theorem findBreak_bounds (text : Str) (start end0 : Int) :
    findBreak text start end0 = end0 ∨
    (max (end0 - 100) start < findBreak text start end0 ∧
      findBreak text start end0 ≤ end0) := by
  unfold findBreak
  cases hf : (pyRangeDown end0 (max (end0 - 100) start)).find?
      (fun i => breakChar (pyCharAt text (i - 1)) && !(pySlice text i (i + 1) == [])) with
  | none => exact Or.inl rfl
  | some i => exact Or.inr (mem_pyRangeDown (List.mem_of_find?_eq_some hf))

theorem chunkEnd_def (text : Str) (size : Nat) (start : Int) :
    chunkEnd text size start =
      if 0 < start ∧ min (start + (size : Int)) (text.length : Int) < (text.length : Int)
      then findBreak text start (min (start + (size : Int)) (text.length : Int))
      else min (start + (size : Int)) (text.length : Int) := rfl

theorem chunkEnd_bounds (text : Str) (size : Nat) (start : Int)
    (h0 : 0 ≤ start) (h1 : start < (text.length : Int)) (hs : 1 ≤ size) :
    start < chunkEnd text size start ∧
    chunkEnd text size start ≤ (text.length : Int) ∧
    (chunkEnd text size start < (text.length : Int) →
      start + (size : Int) - 99 ≤ chunkEnd text size start) := by
  rw [chunkEnd_def]
  split_ifs with hc
  · rcases findBreak_bounds text start
        (min (start + (size : Int)) (text.length : Int)) with hf | ⟨hf1, hf2⟩
    · rw [hf]
      refine ⟨by omega, by omega, by omega⟩
    · refine ⟨by omega, by omega, by omega⟩
  · refine ⟨by omega, by omega, by omega⟩

theorem chunkAux_isSome (size ov : Nat) (text : Str) (hso : ov + 100 ≤ size) :
    ∀ (fuel : Nat) (start : Int) (acc : List Str), 0 ≤ start →
      start ≤ (text.length : Int) → (text.length : Int) < start + fuel →
      ∃ L, chunkAux size ov text fuel start acc = some L := by
  intro fuel
  induction fuel with
  | zero =>
    intro start acc h0 h1 h2
    exfalso
    omega
  | succ fuel ih =>
    intro start acc h0 h1 h2
    simp only [chunkAux]
    by_cases hlt : start < (text.length : Int)
    · rw [if_pos hlt]
      obtain ⟨he1, he2, he3⟩ := chunkEnd_bounds text size start h0 hlt (by omega)
      unfold nextStart
      by_cases helen : chunkEnd text size start < (text.length : Int)
      · rw [if_pos helen]
        have he4 := he3 helen
        exact ih _ _ (by omega) (by omega) (by omega)
      · rw [if_neg helen]
        exact ih _ _ (by omega) (by omega) (by omega)
    · rw [if_neg hlt]
      exact ⟨acc, rfl⟩

theorem chunkAux_eq_strip_raw (size ov : Nat) (text : Str) :
    ∀ (fuel : Nat) (start : Int) (acc : List Str),
      chunkAux size ov text fuel start (acc.map pyStrip) =
        (rawChunkAux size ov text fuel start acc).map (List.map pyStrip) := by
  intro fuel
  induction fuel with
  | zero => intro start acc; rfl
  | succ fuel ih =>
    intro start acc
    simp only [chunkAux, rawChunkAux]
    by_cases hlt : start < (text.length : Int)
    · rw [if_pos hlt, if_pos hlt]
      have hmap : acc.map pyStrip ++ [pyStrip (pySlice text start (chunkEnd text size start))] =
          (acc ++ [pySlice text start (chunkEnd text size start)]).map pyStrip := by
        simp
      rw [hmap]
      exact ih _ _
    · rw [if_neg hlt, if_neg hlt]
      rfl

theorem rawChunkAux_reconstruct (size ov : Nat) (text : Str) (hso : ov + 100 ≤ size) :
    ∀ (fuel : Nat) (start : Int) (acc : List Str), 0 ≤ start →
      start < (text.length : Int) → (text.length : Int) < start + fuel →
      ∃ M, rawChunkAux size ov text fuel start acc = some (acc ++ M) ∧
        reconstruct ov M = text.drop start.toNat ∧
        (M.map (fun c => c.drop ov)).flatten = text.drop (start + ov).toNat := by
  intro fuel
  induction fuel with
  | zero =>
    intro start acc h0 h1 h2
    exfalso
    omega
  | succ fuel ih =>
    intro start acc h0 h1 h2
    simp only [rawChunkAux, if_pos h1]
    obtain ⟨he1, he2, he3⟩ := chunkEnd_bounds text size start h0 h1 (by omega)
    unfold nextStart
    by_cases helen : chunkEnd text size start < (text.length : Int)
    · rw [if_pos helen]
      have he4 := he3 helen
      obtain ⟨M', hM1, hM2, hM3⟩ :=
        ih (chunkEnd text size start - ov) (acc ++ [pySlice text start (chunkEnd text size start)])
          (by omega) (by omega) (by omega)
      refine ⟨pySlice text start (chunkEnd text size start) :: M', ?_, ?_, ?_⟩
      · rw [hM1]
        simp
      · show pySlice text start (chunkEnd text size start) ++
            (M'.map (fun x => x.drop ov)).flatten = _
        rw [hM3, show chunkEnd text size start - (ov : Int) + ov = chunkEnd text size start from by ring]
        exact pySlice_append_drop text start _ h0 (by omega) he2
      · show (pySlice text start (chunkEnd text size start)).drop ov ++
            (M'.map (fun x => x.drop ov)).flatten = _
        rw [hM3, show chunkEnd text size start - (ov : Int) + ov = chunkEnd text size start from by ring]
        rw [drop_pySlice text start _ h0 (by omega) ov]
        exact pySlice_append_drop text (start + ov) _ (by omega) (by omega) he2
    · rw [if_neg helen]
      have heq : chunkEnd text size start = (text.length : Int) :=
        le_antisymm he2 (not_lt.mp helen)
      obtain ⟨fuel', rfl⟩ : ∃ f, fuel = f + 1 := ⟨fuel - 1, by omega⟩
      simp only [rawChunkAux]
      rw [if_neg (by rw [heq]; exact lt_irrefl _)]
      refine ⟨[pySlice text start (chunkEnd text size start)], rfl, ?_, ?_⟩
      · show pySlice text start (chunkEnd text size start) ++ List.flatten [] = _
        rw [heq, List.flatten_nil, List.append_nil,
          pySlice_eq text start _ h0 (by omega),
          show ((text.length : Int)).toNat = text.length from by omega,
          List.take_length]
      · show (pySlice text start (chunkEnd text size start)).drop ov ++ List.flatten [] = _
        rw [List.flatten_nil, List.append_nil, drop_pySlice text start _ h0 (by omega) ov,
          heq, pySlice_eq text _ _ (by omega) (by omega),
          show ((text.length : Int)).toNat = text.length from by omega,
          List.take_length]

theorem collapseWsAux_length_le (b : Bool) (ys : Str) :
    (collapseWsAux b ys).length ≤ ys.length := by
  induction ys generalizing b with
  | nil => simp [collapseWsAux]
  | cons c ys ih =>
    simp only [collapseWsAux]
    split
    · split
      · exact le_trans (ih true) (by simp)
      · simpa using ih true
    · simpa using ih false

theorem pyStrip_length_le (ys : Str) : (pyStrip ys).length ≤ ys.length := by
  unfold pyStrip
  rw [List.length_reverse]
  calc ((ys.dropWhile isPySpace).reverse.dropWhile isPySpace).length
      ≤ (ys.dropWhile isPySpace).reverse.length :=
        (List.dropWhile_sublist _).length_le
    _ = (ys.dropWhile isPySpace).length := List.length_reverse _
    _ ≤ ys.length := (List.dropWhile_sublist _).length_le

theorem normalizeWs_length_le (xs : Str) : (normalizeWs xs).length ≤ xs.length :=
  le_trans (pyStrip_length_le _) (collapseWsAux_length_le false xs)

/-! ## C5 -/

/-- C5 (amended): the chunking loop terminates — with fuel `text.length + 1`
it returns a finite chunk sequence — for every text whenever `chunk_size ≥
overlap + 100` (in particular for the defaults 1000/200); for empty input it
returns the empty sequence.  The margin of 100 is needed because the backward
break scan can move the window end back by up to 99 characters; for
`overlap < chunk_size < overlap + 100` the loop can fail to advance, see the
counterexample. -/
theorem c5_chunker_terminates (size ov : Nat) (text : Str) (h : ov + 100 ≤ size) :
    (∃ L, chunk_text size ov (text.length + 1) text = some L) ∧
    chunk_text size ov 1 [] = some [] := by
  constructor
  · unfold chunk_text
    by_cases ht : text = []
    · rw [if_pos ht]
      exact ⟨[], rfl⟩
    · rw [if_neg ht]
      apply chunkAux_isSome size ov (normalizeWs text) h (text.length + 1) 0 [] le_rfl
      · exact_mod_cast Nat.zero_le _
      · have := normalizeWs_length_le text
        push_cast
        omega
  · rfl

/-- Witness for C5 at `chunk_size = 100`, `overlap = 0`, text `"ab"`. -/
theorem c5_chunker_terminates_witness :
    (∃ L, chunk_text 100 0 ("ab".data.length + 1) "ab".data = some L) ∧
    chunk_text 100 0 1 [] = some [] :=
  c5_chunker_terminates 100 0 "ab".data (by decide)

theorem cycle_step0 (fuel : Nat) (acc : List Str) :
    chunkAux 101 100 chunkCycleText (fuel + 1) 0 acc =
      chunkAux 101 100 chunkCycleText fuel 1
        (acc ++ [pyStrip (pySlice chunkCycleText 0 101)]) := by
  simp only [chunkAux]
  rw [if_pos (show (0:Int) < (chunkCycleText.length : Int) from by decide)]
  rw [show chunkEnd chunkCycleText 101 0 = 101 from by decide]
  rw [show nextStart chunkCycleText 100 101 = 1 from by decide]

theorem cycle_step1 (fuel : Nat) (acc : List Str) :
    chunkAux 101 100 chunkCycleText (fuel + 1) 1 acc =
      chunkAux 101 100 chunkCycleText fuel 1
        (acc ++ [pyStrip (pySlice chunkCycleText 1 101)]) := by
  simp only [chunkAux]
  rw [if_pos (show (1:Int) < (chunkCycleText.length : Int) from by decide)]
  rw [show chunkEnd chunkCycleText 101 1 = 101 from by decide]
  rw [show nextStart chunkCycleText 100 101 = 1 from by decide]

theorem cycle_stuck (fuel : Nat) : ∀ acc, chunkAux 101 100 chunkCycleText fuel 1 acc = none := by
  induction fuel with
  | zero => intro acc; rfl
  | succ fuel ih =>
    intro acc
    rw [cycle_step1 fuel acc]
    exact ih _

/-- Run of the embedded loop with `chunk_size = 101`, `overlap = 100` on
`chunkCycleText`: no amount of fuel finishes it, because from `start = 1` the
backward scan always cuts at index 101 (the dot at index 100) and
`start = 101 - 100 = 1` never advances. -/
theorem chunkCycle_no_fuel_suffices :
    ∀ fuel : Nat, chunk_text 101 100 fuel chunkCycleText = none := by
  intro fuel
  unfold chunk_text
  rw [if_neg (show ¬ chunkCycleText = [] from by decide)]
  rw [show normalizeWs chunkCycleText = chunkCycleText from by decide]
  cases fuel with
  | zero => rfl
  | succ fuel =>
    rw [cycle_step0 fuel []]
    exact cycle_stuck fuel _

set_option maxRecDepth 40000 in
/-- Counterexample to C5: `chunk_size = 101 > 0` and `0 ≤ overlap = 100 <
chunk_size` satisfy the claim's hypotheses, yet on `chunkCycleText` the loop
does not terminate: the fuel `length + 1` that suffices for every
configuration with `chunk_size ≥ overlap + 100` (see `c5_chunker_terminates`)
runs out (first conjunct; `chunkCycle_no_fuel_suffices` extends this to every
fuel), and indeed one loop iteration from `start = 1` — inside the text, last
two conjuncts — reassigns `start = 1`, so the Python loop spins forever. -/
theorem c5_counterexample :
    chunk_text 101 100 (chunkCycleText.length + 1) chunkCycleText = none ∧
    nextStart chunkCycleText 100 (chunkEnd chunkCycleText 101 1) = 1 ∧
    (1:Int) < (chunkCycleText.length : Int) ∧ 0 < 101 ∧ 100 < 101 :=
  ⟨chunkCycle_no_fuel_suffices _, by decide, by decide, by decide, by decide⟩

/-! ## C2 -/

/-- C2 (amended): for every input text, chunking with `chunk_size = 1000`,
`overlap = 200` (fuel `text.length + 1` suffices, by `c5_chunker_terminates`)
returns exactly the per-chunk `.strip()` of a sequence `M` of raw window
slices of the normalised text, and the raw slices — concatenated while
removing each non-first slice's 200-character overlapping prefix — reproduce
the whitespace-normalised input exactly (in particular the final raw slice
ends exactly at the end of the normalised text).  The claim as stated, which
applies the reconstruction to the returned (stripped) chunks, fails; see the
counterexample. -/
theorem c2_chunks_reconstruct_up_to_strip (text : Str) :
    ∃ M, chunk_text 1000 200 (text.length + 1) text = some (M.map pyStrip) ∧
      reconstruct 200 M = normalizeWs text := by
  by_cases ht : text = []
  · refine ⟨[], ?_, ?_⟩
    · subst ht; rfl
    · subst ht; rfl
  · by_cases hN0 : normalizeWs text = []
    · refine ⟨[], ?_, by simp [reconstruct, hN0]⟩
      unfold chunk_text
      rw [if_neg ht]
      simp only [chunkAux]
      rw [if_neg (by rw [hN0]; simp)]
      rfl
    · have hlen : ((normalizeWs text).length : Int) < 0 + ((text.length : Nat) + 1 : Nat) := by
        have := normalizeWs_length_le text
        push_cast
        omega
      have hpos : (0 : Int) < ((normalizeWs text).length : Int) := by
        have : 0 < (normalizeWs text).length := List.length_pos.mpr hN0
        exact_mod_cast this
      obtain ⟨M, hM1, hM2, _⟩ :=
        rawChunkAux_reconstruct 1000 200 (normalizeWs text) (by omega)
          (text.length + 1) 0 [] le_rfl hpos hlen
      refine ⟨M, ?_, ?_⟩
      · unfold chunk_text
        rw [if_neg ht]
        have hc := chunkAux_eq_strip_raw 1000 200 (normalizeWs text)
          (text.length + 1) 0 []
        rw [show ([] : List Str) = ([] : List Str).map pyStrip from rfl, hc, hM1]
        simp
      · simpa using hM2

set_option maxRecDepth 100000 in
/-- Counterexample to C2: on `chunkStripText` (999 `a`s, a space, 200 `b`s;
already normalised) the produced chunks are the two strings `stripChunk1`
(the first window `[0:1000]` with its trailing space stripped) and
`stripChunk2` (the window `[800:1200]`); concatenating them while removing
the second chunk's 200-character overlapping prefix loses the space at
position 999, so it does not reproduce the whitespace-normalised input. -/
theorem c2_counterexample :
    chunk_text 1000 200 1201 chunkStripText = some [stripChunk1, stripChunk2] ∧
    reconstruct 200 [stripChunk1, stripChunk2] ≠ normalizeWs chunkStripText := by
  constructor
  · decide
  · decide
